import Mathlib

/-!
Verification of the status-ingestion handler of the turtle command
dispatcher (`src/lib/mqtt-client/client.js`, `Client.statusHandler`).

The handler receives a `(message, topic)` pair from the MQTT transport,
extracts a turtle identifier from the topic with the regular expression
`([^/]+)\/status$`, and then either deletes the turtle from the registry
(`null` payload), or sanitizes the inventory (when `online` is truthy) and
calls `getTurtle(id).updateStatus(message)`.

The embedding is trace-based: the external registry (`this.turtles`) is a
parameter describing how each operation behaves (succeed, throw
synchronously, or return a promise that rejects asynchronously), and the
handler returns the list of registry calls it performed together with
flags for logging, promise resolution, unhandled rejections, and the final
content of the (mutated in place) message object.
-/

set_option autoImplicit false

namespace TurtleDispatcher

/-- A JavaScript value as far as the handler inspects one: the `online`
field of a status message is tested only for truthiness (`if (message.online)`). -/
inductive JSVal where
  | undef
  | jsNull
  | bool (b : Bool)
  | num (n : Int)
  | str (s : String)
deriving DecidableEq, Repr

/-- JavaScript truthiness for the modelled values: `undefined`, `null`,
`false`, `0` and `""` are falsy; everything else is truthy. -/
def truthy : JSVal → Bool
  | .undef => false
  | .jsNull => false
  | .bool b => b
  | .num n => n != 0
  | .str s => s != ""

/-- One slot of `message.inventory`: either a description object (modelled
as a field list), an array (modelled as a list of numbers), or `null` —
the value the sanitizer substitutes for arrays. -/
inductive Slot where
  | obj (fields : List (String × String))
  | arr (elems : List Int)
  | nullSlot
deriving DecidableEq, Repr

/-- The test `Array.isArray(slot)` on a slot value. -/
def isArraySlot : Slot → Bool
  | .arr _ => true
  | _ => false

/-- The mapped function `slot => Array.isArray(slot) ? null : slot`. -/
def sanitizeSlot (slot : Slot) : Slot :=
  if isArraySlot slot then .nullSlot else slot

/-- The transform `message.inventory.map(slot => Array.isArray(slot) ? null : slot)`. -/
def sanitizeInventory (inv : List Slot) : List Slot :=
  inv.map sanitizeSlot

/-- A non-null status message: the fields the handler touches. -/
structure StatusMessage where
  online : JSVal
  inventory : List Slot
deriving DecidableEq, Repr

/-- The body of `topic.match(/([^/]+)\/status$/)`, run on the reversed
character list of the topic: the reversed topic must start with the
reversal of the literal `/status`, and the capture group `([^/]+)` is the
maximal nonempty run of non-slash characters immediately before it
(maximality reflects the greediness of `[^/]+` together with the leftmost
successful match start of the JS engine). -/
def matchRevTopic : List Char → Option (List Char)
  | 's' :: 'u' :: 't' :: 'a' :: 't' :: 's' :: '/' :: rest =>
    let seg := rest.takeWhile (fun c => c != '/')
    if seg.isEmpty then none else some seg.reverse
  | _ => none

/-- The expression `topic.match(/([^/]+)\/status$/)`: `some id` when the
match succeeds with capture `id`, `none` when `match` returns `null`. -/
def extractTurtleId (topic : String) : Option String :=
  (matchRevTopic topic.data.reverse).map (fun cs => String.mk cs)

/-- How one registry operation behaves on a given invocation: return
normally, throw synchronously, or return a promise that rejects later. -/
inductive OpOutcome where
  | ok
  | syncThrow (e : String)
  | asyncReject (e : String)
deriving DecidableEq, Repr

/-- The behaviour of the external `TurtleManager` (`this.turtles`):
`deleteTurtle` and `updateStatus` may also fail asynchronously (they
return promises); `getTurtle` returns a turtle handle directly, so it can
only throw synchronously (`some e`) or return the handle (`none`). -/
structure Registry where
  deleteOutcome : String → OpOutcome
  getOutcome : String → Option String
  updateOutcome : String → StatusMessage → OpOutcome

/-- One invocation of a registry operation, recorded with its arguments.
`updateStatus` records the message object as passed (after any in-place
sanitization). -/
inductive RegistryCall where
  | deleteTurtle (id : String)
  | getTurtle (id : String)
  | updateStatus (id : String) (msg : StatusMessage)
deriving DecidableEq, Repr

/-- Observable outcome of one `statusHandler(message, topic)` call:
`calls` is the sequence of registry invocations, `resolved` whether the
returned promise resolves (rather than rejects), `loggedError` /
`loggedWarn` whether `log.error` (malformed topic) / `log.warn` (caught
failure) fired, `unhandledRejections` the rejections of promises the
handler neither awaited nor caught, and `finalMessage` the content of the
caller's message object after the call (the handler mutates
`message.inventory` in place). -/
structure HandlerResult where
  calls : List RegistryCall
  resolved : Bool
  loggedError : Bool
  loggedWarn : Bool
  unhandledRejections : List String
  finalMessage : Option StatusMessage
deriving DecidableEq, Repr

/-- The in-place transform applied to a non-null message before the
registry update: `if (message.online) message.inventory = message.inventory.map(...)`. -/
def effMessage (msg : StatusMessage) : StatusMessage :=
  if truthy msg.online then { msg with inventory := sanitizeInventory msg.inventory } else msg

/-- The method `Client.statusHandler(message, topic)`.

Faithful control flow of the source:
* no regex match → `log.error`, return (no registry call);
* `message === null` → `this.turtles.deleteTurtle(turtleId)` **without**
  `await`: a synchronous throw is caught by the surrounding `try`, but an
  asynchronous rejection of the returned promise is not — it becomes an
  unhandled rejection while the handler still resolves;
* otherwise the inventory is sanitized in place when `online` is truthy,
  then `await (this.turtles.getTurtle(turtleId).updateStatus(message))`:
  synchronous throws of either call and the awaited rejection of
  `updateStatus` are all caught by the `try`/`catch`, which logs a warning
  and swallows the error, so the handler always resolves. -/
def statusHandler (reg : Registry) (message : Option StatusMessage) (topic : String) :
    HandlerResult :=
  match extractTurtleId topic with
  | none =>
    { calls := [], resolved := true, loggedError := true, loggedWarn := false,
      unhandledRejections := [], finalMessage := message }
  | some turtleId =>
    match message with
    | none =>
      match reg.deleteOutcome turtleId with
      | .ok =>
        { calls := [.deleteTurtle turtleId], resolved := true, loggedError := false,
          loggedWarn := false, unhandledRejections := [], finalMessage := none }
      | .syncThrow _ =>
        { calls := [.deleteTurtle turtleId], resolved := true, loggedError := false,
          loggedWarn := true, unhandledRejections := [], finalMessage := none }
      | .asyncReject e =>
        { calls := [.deleteTurtle turtleId], resolved := true, loggedError := false,
          loggedWarn := false, unhandledRejections := [e], finalMessage := none }
    | some msg =>
      let msg2 := effMessage msg
      match reg.getOutcome turtleId with
      | some _ =>
        { calls := [.getTurtle turtleId], resolved := true, loggedError := false,
          loggedWarn := true, unhandledRejections := [], finalMessage := some msg2 }
      | none =>
        match reg.updateOutcome turtleId msg2 with
        | .ok =>
          { calls := [.getTurtle turtleId, .updateStatus turtleId msg2], resolved := true,
            loggedError := false, loggedWarn := false, unhandledRejections := [],
            finalMessage := some msg2 }
        | .syncThrow _ =>
          { calls := [.getTurtle turtleId, .updateStatus turtleId msg2], resolved := true,
            loggedError := false, loggedWarn := true, unhandledRejections := [],
            finalMessage := some msg2 }
        | .asyncReject _ =>
          { calls := [.getTurtle turtleId, .updateStatus turtleId msg2], resolved := true,
            loggedError := false, loggedWarn := true, unhandledRejections := [],
            finalMessage := some msg2 }

/-- Which registry calls mutate registry state: deletion and status
update.  `getTurtle` is the get-or-create lookup used to obtain the device
handle on which the (single) update mutation is performed. -/
def isMutation : RegistryCall → Bool
  | .deleteTurtle _ => true
  | .getTurtle _ => false
  | .updateStatus _ _ => true

/-- Number of mutating registry calls in a trace. -/
def mutationCount (calls : List RegistryCall) : Nat :=
  (calls.filter isMutation).length

/-- A registry on which every operation succeeds. -/
def okRegistry : Registry :=
  { deleteOutcome := fun _ => .ok
    getOutcome := fun _ => none
    updateOutcome := fun _ _ => .ok }

/-- A registry whose `updateStatus` throws synchronously. -/
def updateThrowRegistry : Registry :=
  { deleteOutcome := fun _ => .ok
    getOutcome := fun _ => none
    updateOutcome := fun _ _ => .syncThrow "boom" }

/-- A registry whose `deleteTurtle` returns a promise that rejects. -/
def deleteRejectRegistry : Registry :=
  { deleteOutcome := fun _ => .asyncReject "gone"
    getOutcome := fun _ => none
    updateOutcome := fun _ _ => .ok }

lemma takeWhile_eq_of_append {p : Char → Bool} (xs : List Char) (y : Char) (ys : List Char)
    (hxs : ∀ x ∈ xs, p x = true) (hy : p y = false) :
    (xs ++ y :: ys).takeWhile p = xs := by
  induction xs with
  | nil => simp [List.takeWhile_cons, hy]
  | cons a as ih =>
    have ha : p a = true := hxs a (List.mem_cons_self a as)
    have hrest := ih (fun x hx => hxs x (List.mem_cons_of_mem a hx))
    simp [List.takeWhile_cons, ha, hrest]

lemma mk_data_eq (s : String) : String.mk s.data = s := rfl

lemma data_ne_nil_of_ne_empty {s : String} (h : s ≠ "") : s.data ≠ [] := by
  intro hd
  exact h (by rw [← mk_data_eq s, hd])

/-- C1: for every topic of the shape `<base>/<id>/status` (where the
identifier is a nonempty segment containing no slash), the handler's
identifier extraction (`topic.match(/([^/]+)\/status$/)`) captures exactly
the segment between the last two slash delimiters before the literal
`status` suffix, i.e. `<id>`. -/
theorem C1_identifier_extraction (base id : String) (h1 : id ≠ "")
    (h2 : ∀ c ∈ id.data, c ≠ '/') :
    extractTurtleId (base ++ "/" ++ id ++ "/status") = some id := by
  have hdata : (base ++ "/" ++ id ++ "/status").data.reverse
      = 's' :: 'u' :: 't' :: 'a' :: 't' :: 's' :: '/' ::
        (id.data.reverse ++ '/' :: base.data.reverse) := by
    have hs : ("/status" : String).data = ['/', 's', 't', 'a', 't', 'u', 's'] := rfl
    have hsl : ("/" : String).data = ['/'] := rfl
    simp [String.data_append, hs, hsl, List.reverse_append]
  have htw : (id.data.reverse ++ '/' :: base.data.reverse).takeWhile (fun c => c != '/')
      = id.data.reverse := by
    refine takeWhile_eq_of_append _ _ _ ?_ ?_
    · intro x hx
      exact bne_iff_ne.mpr (h2 x (List.mem_reverse.mp hx))
    · decide
  have hne : id.data.reverse ≠ [] := by
    simpa [List.reverse_eq_nil_iff] using data_ne_nil_of_ne_empty h1
  have hie : id.data.reverse.isEmpty = false := by
    cases h : id.data.reverse
    · exact absurd h hne
    · rfl
  unfold extractTurtleId
  rw [hdata]
  simp only [matchRevTopic, htw, hie]
  simp [List.reverse_reverse, mk_data_eq]

/-- C1 witness: the hypotheses hold for base `quayos/turtles` and id `t42`,
and the extracted identifier on `quayos/turtles/t42/status` is `t42`. -/
theorem C1_identifier_extraction_witness :
    ("t42" : String) ≠ "" ∧ (∀ c ∈ ("t42" : String).data, c ≠ '/') ∧
    extractTurtleId ("quayos/turtles" ++ "/" ++ "t42" ++ "/status") = some "t42" :=
  ⟨by decide, by decide, C1_identifier_extraction "quayos/turtles" "t42" (by decide) (by decide)⟩

/-- C2 counterexample: the claim asserts that `quayos/turtles/status` (which is
not of the shape `<base>/<id>/status` for the deployment base
`quayos/turtles`) causes no registry call — but the regex
`([^/]+)\/status$` does match that topic with capture `turtles`, so the
handler invokes the registry's delete operation. -/
theorem C2_counterexample :
    (statusHandler okRegistry none "quayos/turtles/status").calls
      = [RegistryCall.deleteTurtle "turtles"] ∧
    ¬ (statusHandler okRegistry none "quayos/turtles/status").calls = [] := by
  constructor <;> decide

/-- C2 (amended): for every topic the handler's pattern does not match —
those not ending in a nonempty slash-free segment followed by `/status`,
such as `other/topic` — the handler performs no registry call and does not
throw (its promise resolves).  Topics such as `quayos/turtles/status` do
match the pattern (capture `turtles`) and do reach the registry. -/
theorem C2_no_match_no_registry_call (reg : Registry) (message : Option StatusMessage)
    (topic : String) (h : extractTurtleId topic = none) :
    (statusHandler reg message topic).calls = [] ∧
    (statusHandler reg message topic).resolved = true := by
  simp [statusHandler, h]

/-- C2 witness: `other/topic` does not match, and the handler makes no
registry call and resolves there. -/
theorem C2_no_match_no_registry_call_witness :
    extractTurtleId "other/topic" = none ∧
    ((statusHandler okRegistry none "other/topic").calls = [] ∧
     (statusHandler okRegistry none "other/topic").resolved = true) :=
  ⟨by decide, C2_no_match_no_registry_call okRegistry none "other/topic" (by decide)⟩

/-- C3: for every non-null payload and matching topic, when `getTurtle`
throws or `updateStatus` fails (synchronously or via a rejected, awaited
promise), the handler still resolves and the error is logged as a warning
and swallowed (never re-thrown to the caller). -/
theorem C3_registry_failure_swallowed (reg : Registry) (msg : StatusMessage)
    (topic id e : String) (hid : extractTurtleId topic = some id)
    (hfail : reg.getOutcome id = some e ∨
      reg.updateOutcome id (effMessage msg) = OpOutcome.syncThrow e ∨
      reg.updateOutcome id (effMessage msg) = OpOutcome.asyncReject e) :
    (statusHandler reg (some msg) topic).resolved = true ∧
    (statusHandler reg (some msg) topic).loggedWarn = true := by
  rcases hfail with h | h | h
  · simp [statusHandler, hid, h]
  · rcases hget : reg.getOutcome id with _ | e2
    · simp [statusHandler, hid, hget, h]
    · simp [statusHandler, hid, hget]
  · rcases hget : reg.getOutcome id with _ | e2
    · simp [statusHandler, hid, hget, h]
    · simp [statusHandler, hid, hget]

/-- C3 witness: with a registry whose `updateStatus` throws, a status
update on `quayos/turtles/t42/status` still resolves and logs a warning. -/
theorem C3_registry_failure_swallowed_witness :
    (statusHandler updateThrowRegistry
        (some { online := JSVal.bool true, inventory := [] })
        "quayos/turtles/t42/status").resolved = true ∧
    (statusHandler updateThrowRegistry
        (some { online := JSVal.bool true, inventory := [] })
        "quayos/turtles/t42/status").loggedWarn = true :=
  C3_registry_failure_swallowed updateThrowRegistry
    { online := JSVal.bool true, inventory := [] }
    "quayos/turtles/t42/status" "t42" "boom" (by decide) (Or.inr (Or.inl rfl))

/-- C4: for every payload whose `online` field is the boolean `true`, the
handler sanitizes the inventory (arrays become `null`, objects unchanged)
and passes the sanitized message to the registry's update operation. -/
theorem C4_online_true_sanitizes (reg : Registry) (msg : StatusMessage)
    (topic id : String) (hid : extractTurtleId topic = some id)
    (hon : msg.online = JSVal.bool true) (hget : reg.getOutcome id = none) :
    (statusHandler reg (some msg) topic).calls =
      [RegistryCall.getTurtle id,
       RegistryCall.updateStatus id { msg with inventory := sanitizeInventory msg.inventory }] := by
  have heff : effMessage msg = { msg with inventory := sanitizeInventory msg.inventory } := by
    simp [effMessage, truthy, hon]
  rcases hupd : reg.updateOutcome id { msg with inventory := sanitizeInventory msg.inventory }
      with _ | e | e <;>
    simp [statusHandler, hid, hget, heff, hupd]

/-- C4 witness: inventory `[{name:"axe"}, [1,2], {name:"pick"}]` with
`online: true` is passed to the update operation as
`[{name:"axe"}, null, {name:"pick"}]`. -/
theorem C4_online_true_sanitizes_witness :
    (statusHandler okRegistry
        (some { online := JSVal.bool true,
                inventory := [Slot.obj [("name", "axe")], Slot.arr [1, 2],
                              Slot.obj [("name", "pick")]] })
        "quayos/turtles/t42/status").calls =
      [RegistryCall.getTurtle "t42",
       RegistryCall.updateStatus "t42"
         { online := JSVal.bool true,
           inventory := [Slot.obj [("name", "axe")], Slot.nullSlot,
                         Slot.obj [("name", "pick")]] }] := by
  rw [C4_online_true_sanitizes okRegistry
    { online := JSVal.bool true,
      inventory := [Slot.obj [("name", "axe")], Slot.arr [1, 2],
                    Slot.obj [("name", "pick")]] }
    "quayos/turtles/t42/status" "t42" (by decide) rfl rfl]
  decide

/-- C5: given payload `null` and a matching topic for identifier `id`, the
handler invokes the registry's delete operation with `id` exactly once and
invokes no other registry operation — whatever the delete's outcome. -/
theorem C5_null_payload_deletes_once (reg : Registry) (topic id : String)
    (hid : extractTurtleId topic = some id) :
    (statusHandler reg none topic).calls = [RegistryCall.deleteTurtle id] := by
  rcases hdo : reg.deleteOutcome id with _ | e | e <;>
    simp [statusHandler, hid, hdo]

/-- C5 witness: a null payload on `quayos/turtles/t7/status` produces
exactly the registry call `deleteTurtle "t7"`. -/
theorem C5_null_payload_deletes_once_witness :
    (statusHandler okRegistry none "quayos/turtles/t7/status").calls
      = [RegistryCall.deleteTurtle "t7"] :=
  C5_null_payload_deletes_once okRegistry "quayos/turtles/t7/status" "t7" (by decide)

/-- C6: for every payload whose `online` field is the boolean `false`, the
message (inventory included) is passed to the registry's update operation
unmodified — no array-to-null substitution is performed. -/
theorem C6_offline_no_sanitize (reg : Registry) (msg : StatusMessage)
    (topic id : String) (hid : extractTurtleId topic = some id)
    (hon : msg.online = JSVal.bool false) (hget : reg.getOutcome id = none) :
    (statusHandler reg (some msg) topic).calls =
      [RegistryCall.getTurtle id, RegistryCall.updateStatus id msg] := by
  have heff : effMessage msg = msg := by
    simp [effMessage, truthy, hon]
  rcases hupd : reg.updateOutcome id msg with _ | e | e <;>
    simp [statusHandler, hid, hget, heff, hupd]

/-- C6 witness: payload `{ online: false, inventory: [[1,2]] }` keeps
inventory `[[1,2]]` in the update call. -/
theorem C6_offline_no_sanitize_witness :
    (statusHandler okRegistry
        (some { online := JSVal.bool false, inventory := [Slot.arr [1, 2]] })
        "quayos/turtles/t42/status").calls =
      [RegistryCall.getTurtle "t42",
       RegistryCall.updateStatus "t42"
         { online := JSVal.bool false, inventory := [Slot.arr [1, 2]] }] :=
  C6_offline_no_sanitize okRegistry
    { online := JSVal.bool false, inventory := [Slot.arr [1, 2]] }
    "quayos/turtles/t42/status" "t42" (by decide) rfl rfl

/-- C7: every single handler call performs at most one mutating registry
call (a delete or a status update); `getTurtle` is the get-or-create
lookup that yields the handle on which the single update is performed. -/
theorem C7_at_most_one_mutation (reg : Registry) (message : Option StatusMessage)
    (topic : String) :
    mutationCount (statusHandler reg message topic).calls ≤ 1 := by
  rcases hid : extractTurtleId topic with _ | id
  · simp [statusHandler, hid, mutationCount]
  · rcases message with _ | msg
    · rcases hdo : reg.deleteOutcome id with _ | e | e <;>
        simp [statusHandler, hid, hdo, mutationCount, isMutation, List.filter]
    · rcases hget : reg.getOutcome id with _ | e
      · rcases hupd : reg.updateOutcome id (effMessage msg) with _ | e | e <;>
          simp [statusHandler, hid, hget, hupd, mutationCount, isMutation, List.filter]
      · simp [statusHandler, hid, hget, mutationCount, isMutation, List.filter]

/-- C8: in the null-payload branch `deleteTurtle` is invoked without
`await`: an asynchronous rejection of its promise is not caught (no
warning is logged; it surfaces as an unhandled rejection) while the
handler still resolves, whereas a synchronous throw is caught and logged
as a warning. -/
theorem C8_delete_not_awaited (reg : Registry) (topic id e : String)
    (hid : extractTurtleId topic = some id) :
    (reg.deleteOutcome id = OpOutcome.asyncReject e →
      (statusHandler reg none topic).resolved = true ∧
      (statusHandler reg none topic).loggedWarn = false ∧
      (statusHandler reg none topic).unhandledRejections = [e]) ∧
    (reg.deleteOutcome id = OpOutcome.syncThrow e →
      (statusHandler reg none topic).resolved = true ∧
      (statusHandler reg none topic).loggedWarn = true ∧
      (statusHandler reg none topic).unhandledRejections = []) := by
  constructor <;> intro h <;> simp [statusHandler, hid, h]

/-- C8 witness: with a registry whose `deleteTurtle` promise rejects with
`gone`, the handler resolves, logs no warning, and leaves the rejection
unhandled. -/
theorem C8_delete_not_awaited_witness :
    (statusHandler deleteRejectRegistry none "quayos/turtles/t42/status").resolved = true ∧
    (statusHandler deleteRejectRegistry none "quayos/turtles/t42/status").loggedWarn = false ∧
    (statusHandler deleteRejectRegistry none "quayos/turtles/t42/status").unhandledRejections
      = ["gone"] :=
  (C8_delete_not_awaited deleteRejectRegistry "quayos/turtles/t42/status" "t42" "gone"
    (by decide)).1 rfl

/-- C9: the sanitization mutates the caller's message object in place: for
every payload with truthy `online`, after the handler returns, the
caller's object holds the sanitized inventory, and the very same
(sanitized) object is what the update operation received. -/
theorem C9_sanitize_in_place (reg : Registry) (msg : StatusMessage)
    (topic id : String) (hid : extractTurtleId topic = some id)
    (hon : truthy msg.online = true) :
    (statusHandler reg (some msg) topic).finalMessage =
      some { msg with inventory := sanitizeInventory msg.inventory } ∧
    (reg.getOutcome id = none →
      (statusHandler reg (some msg) topic).calls =
        [RegistryCall.getTurtle id,
         RegistryCall.updateStatus id
           { msg with inventory := sanitizeInventory msg.inventory }]) := by
  have heff : effMessage msg = { msg with inventory := sanitizeInventory msg.inventory } := by
    simp [effMessage, hon]
  constructor
  · rcases hget : reg.getOutcome id with _ | e
    · rcases hupd : reg.updateOutcome id { msg with inventory := sanitizeInventory msg.inventory }
          with _ | e | e <;>
        simp [statusHandler, hid, hget, heff, hupd]
    · simp [statusHandler, hid, hget, heff]
  · intro hget
    rcases hupd : reg.updateOutcome id { msg with inventory := sanitizeInventory msg.inventory }
        with _ | e | e <;>
      simp [statusHandler, hid, hget, heff, hupd]

/-- C9 witness: after handling `{ online: true, inventory: [[1,2], {name:"axe"}] }`
the caller's object holds `[null, {name:"axe"}]`, the value also passed to
the update operation. -/
theorem C9_sanitize_in_place_witness :
    (statusHandler okRegistry
        (some { online := JSVal.bool true,
                inventory := [Slot.arr [1, 2], Slot.obj [("name", "axe")]] })
        "quayos/turtles/t42/status").finalMessage =
      some { online := JSVal.bool true,
             inventory := sanitizeInventory [Slot.arr [1, 2], Slot.obj [("name", "axe")]] } ∧
    (okRegistry.getOutcome "t42" = none →
      (statusHandler okRegistry
          (some { online := JSVal.bool true,
                  inventory := [Slot.arr [1, 2], Slot.obj [("name", "axe")]] })
          "quayos/turtles/t42/status").calls =
        [RegistryCall.getTurtle "t42",
         RegistryCall.updateStatus "t42"
           { online := JSVal.bool true,
             inventory := sanitizeInventory [Slot.arr [1, 2], Slot.obj [("name", "axe")]] }]) :=
  C9_sanitize_in_place okRegistry
    { online := JSVal.bool true,
      inventory := [Slot.arr [1, 2], Slot.obj [("name", "axe")]] }
    "quayos/turtles/t42/status" "t42" (by decide) rfl

/-- C10: sanitization is keyed on truthiness, not on the boolean `true`:
for every payload whose `online` field is truthy (for example the number 1
or a nonempty string), the array-to-null substitution is applied before
the update call. -/
theorem C10_truthy_online_sanitizes (reg : Registry) (msg : StatusMessage)
    (topic id : String) (hid : extractTurtleId topic = some id)
    (hon : truthy msg.online = true) (hget : reg.getOutcome id = none) :
    (statusHandler reg (some msg) topic).calls =
      [RegistryCall.getTurtle id,
       RegistryCall.updateStatus id
         { msg with inventory := sanitizeInventory msg.inventory }] := by
  have heff : effMessage msg = { msg with inventory := sanitizeInventory msg.inventory } := by
    simp [effMessage, hon]
  rcases hupd : reg.updateOutcome id { msg with inventory := sanitizeInventory msg.inventory }
      with _ | e | e <;>
    simp [statusHandler, hid, hget, heff, hupd]

/-- C10 witness: `online` equal to the number 1 (truthy, not the boolean
`true`) still triggers the substitution: `[[1,2]]` is updated as `[null]`. -/
theorem C10_truthy_online_sanitizes_witness :
    (statusHandler okRegistry
        (some { online := JSVal.num 1, inventory := [Slot.arr [1, 2]] })
        "quayos/turtles/t42/status").calls =
      [RegistryCall.getTurtle "t42",
       RegistryCall.updateStatus "t42"
         { online := JSVal.num 1, inventory := [Slot.nullSlot] }] := by
  rw [C10_truthy_online_sanitizes okRegistry
    { online := JSVal.num 1, inventory := [Slot.arr [1, 2]] }
    "quayos/turtles/t42/status" "t42" (by decide) (by decide) rfl]
  decide

end TurtleDispatcher
